import Mathlib

/-!
Verification of the reqtify HTTP request-building library (Go).

Shallow embedding of the canonical sources (`reqtify` package, file with
`ReqtifierImpl`/`RequestImpl`, and `multipart.go`).  Byte sequences carried by
`io.Reader`s are modelled as `String`s; Go `url.Values` (a map from string to
string slice) as an association list whose `Encode` sorts keys as Go does;
Go maps' randomized iteration order is fixed to insertion order (no claim
depends on it).  Randomness for the multipart boundary is an explicit
parameter `rnd : Nat → Fin 64` giving the index into the letter table for
each of the 32 boundary characters.  Panic paths (unsupported stringify
input, unchecked interface downcasts, reading a nil reader) are modelled
with `Option`/a distinguished result constructor.
-/

/-- The HTTP verb type: `type HttpVerb string` in the source. -/
abbrev HttpVerb := String

def GET : HttpVerb := "GET"

def POST : HttpVerb := "POST"

def PUT : HttpVerb := "PUT"

def PATCH : HttpVerb := "PATCH"

def DELETE : HttpVerb := "DELETE"

def HEAD : HttpVerb := "HEAD"

/-- A file attachment's data source (`io.Reader` in the source): its byte
content, plus whether the dynamic type also implements `io.ReadCloser`
(the pipeline downcasts to that interface after the transport call). -/
structure DataSource where
  content : String
  closable : Bool
  deriving DecidableEq, Repr

/-- `type FormFile struct { Name string; Data io.Reader }` -/
structure FormFile where
  Name : String
  Data : DataSource
  deriving DecidableEq, Repr

/-- Go `interface{}` values as the stringifier's type switch distinguishes
them.  Pointers carry an address (Go compares interfaces holding pointers by
address) and the pointee.  Floats are abstracted by their
`strconv.FormatFloat(_, 'f', -1, _)` rendering.  `vstringer` is any other
type implementing `fmt.Stringer`, abstracted by its `String()` output and an
address for identity; `vother` is an unsupported kind (stringify panics),
abstracted by an identity for interface comparison. -/
inductive GoValue where
  | vnil
  | vstring (s : String)
  | vpstring (p : Option (Nat × String))
  | vint (n : Int)
  | vpint (p : Option (Nat × Int))
  | vint64 (n : Int)
  | vpint64 (p : Option (Nat × Int))
  | vfloat32 (rep : String)
  | vpfloat32 (p : Option (Nat × String))
  | vfloat64 (rep : String)
  | vpfloat64 (p : Option (Nat × String))
  | vrune (c : Char)
  | vprune (p : Option (Nat × Char))
  | vbool (b : Bool)
  | vpbool (p : Option (Nat × Bool))
  | vstringer (addr : Nat) (s : String)
  | vother (id : Nat)
  deriving DecidableEq, Repr

/-- Go interface equality on two pointers of the same pointer type:
nil equals nil, non-nil pointers compare by address. -/
def goPtrEq {α : Type} : Option (Nat × α) → Option (Nat × α) → Bool
  | none, none => true
  | some p, some q => p.1 == q.1
  | _, _ => false

/-- Go `value != def` interface comparison (negated): equal iff same dynamic
type and equal value (pointers by address). -/
def goEq : GoValue → GoValue → Bool
  | .vnil, .vnil => true
  | .vstring a, .vstring b => a == b
  | .vpstring a, .vpstring b => goPtrEq a b
  | .vint a, .vint b => a == b
  | .vpint a, .vpint b => goPtrEq a b
  | .vint64 a, .vint64 b => a == b
  | .vpint64 a, .vpint64 b => goPtrEq a b
  | .vfloat32 a, .vfloat32 b => a == b
  | .vpfloat32 a, .vpfloat32 b => goPtrEq a b
  | .vfloat64 a, .vfloat64 b => a == b
  | .vpfloat64 a, .vpfloat64 b => goPtrEq a b
  | .vrune a, .vrune b => a == b
  | .vprune a, .vprune b => goPtrEq a b
  | .vbool a, .vbool b => a == b
  | .vpbool a, .vpbool b => goPtrEq a b
  | .vstringer a _, .vstringer b _ => a == b
  | .vother a, .vother b => a == b
  | _, _ => false

/-- Outcome of `stringify`: `(string, true)`, `("", false)`, or a panic. -/
inductive StringifyResult where
  | present (s : String)
  | absent
  | panicked
  deriving DecidableEq, Repr

/-- `func stringify(i interface{}) (string, bool)`: the canonical string of a
supported value, absent for nil/nil pointers, panic for unsupported kinds.
(`strconv.Itoa`/`FormatInt` are Lean's decimal `toString` on `Int`; the
source's dead `x == nil` check inside the `fmt.Stringer` branch cannot fire
because a nil interface is already handled by the first line.) -/
def stringify : GoValue → StringifyResult
  | .vnil => .absent
  | .vstring s => .present s
  | .vpstring none => .absent
  | .vpstring (some p) => .present p.2
  | .vint n => .present (toString n)
  | .vpint none => .absent
  | .vpint (some p) => .present (toString p.2)
  | .vint64 n => .present (toString n)
  | .vpint64 none => .absent
  | .vpint64 (some p) => .present (toString p.2)
  | .vfloat32 rep => .present rep
  | .vpfloat32 none => .absent
  | .vpfloat32 (some p) => .present p.2
  | .vfloat64 rep => .present rep
  | .vpfloat64 none => .absent
  | .vpfloat64 (some p) => .present p.2
  | .vrune c => .present (String.mk [c])
  | .vprune none => .absent
  | .vprune (some p) => .present (String.mk [p.2])
  | .vbool b => .present (if b then "true" else "false")
  | .vpbool none => .absent
  | .vpbool (some p) => .present (if p.2 then "true" else "false")
  | .vstringer _ s => .present s
  | .vother _ => .panicked

/-- Go `str != def` where `str` is a `string` and `def` an `interface{}`:
equal iff the interface holds a string equal to `str`. -/
def strEqGoValue (str : String) (dv : GoValue) : Bool :=
  match dv with
  | .vstring t => str == t
  | _ => false

/-- `url.Values`: a map from key to slice of values.  Modelled as an
association list; `add` mirrors `Values.Add` (append to the key's slice). -/
def Values := List (String × List String)

instance : DecidableEq Values := inferInstanceAs (DecidableEq (List (String × List String)))

def Values.empty : Values := []

def Values.add (vs : Values) (key value : String) : Values :=
  match vs with
  | [] => [(key, [value])]
  | (k, l) :: rest => if k = key then (k, l ++ [value]) :: rest else (k, l) :: Values.add rest key value

/-- Total number of stored values, over all keys. -/
def Values.count (vs : Values) : Nat :=
  match vs with
  | [] => 0
  | (_, l) :: rest => l.length + Values.count rest

def Values.length (vs : Values) : Nat :=
  match vs with
  | [] => 0
  | _ :: rest => 1 + Values.length rest

/-- UTF-8 bytes of a unicode scalar value (standard encoding arithmetic). -/
def utf8Bytes (n : Nat) : List Nat :=
  if n < 0x80 then [n]
  else if n < 0x800 then [0xC0 + n / 64, 0x80 + n % 64]
  else if n < 0x10000 then [0xE0 + n / 4096, 0x80 + (n / 64) % 64, 0x80 + n % 64]
  else [0xF0 + n / 262144, 0x80 + (n / 4096) % 64, 0x80 + (n / 64) % 64, 0x80 + n % 64]

def hexDigits : List Char := "0123456789ABCDEF".toList

/-- Go `url.shouldEscape` for query components: keep unreserved ASCII. -/
def isUnreservedByte (b : Nat) : Bool :=
  (0x41 ≤ b && b ≤ 0x5A) || (0x61 ≤ b && b ≤ 0x7A) || (0x30 ≤ b && b ≤ 0x39) ||
  b == 0x2D || b == 0x5F || b == 0x2E || b == 0x7E

def escapeByte (b : Nat) : List Char :=
  if b = 32 then ['+']
  else if isUnreservedByte b then [Char.ofNat b]
  else ['%', hexDigits.getD (b / 16) '0', hexDigits.getD (b % 16) '0']

/-- Go `url.QueryEscape`. -/
def queryEscape (s : String) : String :=
  String.mk (((s.toList.map (fun c => utf8Bytes c.toNat)).flatten.map escapeByte).flatten)

/-- Insertion sort of the key/values pairs by key, standing for Go's
`sort.Strings` over the map's keys in `Values.Encode`. -/
def insertPair (p : String × List String) : List (String × List String) → List (String × List String)
  | [] => [p]
  | q :: rest => if p.1 ≤ q.1 then p :: q :: rest else q :: insertPair p rest

def sortPairs : List (String × List String) → List (String × List String)
  | [] => []
  | p :: rest => insertPair p (sortPairs rest)

def joinAmp : List String → String
  | [] => ""
  | [p] => p
  | p :: rest => p ++ "&" ++ joinAmp rest

/-- `url.Values.Encode`: sort keys, emit `k=v` for every value of every key,
joined with `&`, with key and value query-escaped. -/
def Values.encode (vs : Values) : String :=
  joinAmp ((sortPairs vs).map (fun kv => kv.2.map (fun v => queryEscape kv.1 ++ "=" ++ queryEscape v))).flatten

/-- `func (this *RequestImpl) argDefaultHelper(key string, value, def interface{},
values url.Values) (Request)`: skip when `value == def`; otherwise stringify
(propagating its panic as `none`); add only when present and the string
differs from the raw default. -/
def argDefaultHelper (key : String) (value default : GoValue) (values : Values) : Option Values :=
  if goEq value default then some values
  else
    match stringify value with
    | .panicked => none
    | .absent => some values
    | .present str => if strEqGoValue str default then some values else some (values.add key str)

/-- The boundary letter table of `multipart.go`:
`"abcdefghijklmnopqrstuvwxyzABCDEFGHIJKLMNOPQRSTUVWXYZ0123456789._"`. -/
def letters : List Char := "abcdefghijklmnopqrstuvwxyzABCDEFGHIJKLMNOPQRSTUVWXYZ0123456789._".toList

/-- The 32 random boundary characters drawn by `randomBoundary`, with the
random source made explicit: `rnd i` is `rand.Intn(len(letters))` for draw `i`. -/
def randomChars (rnd : Nat → Fin 64) : List Char :=
  (List.range 32).map (fun i => letters.getD (rnd i).val 'a')

/-- The fixed stem `"------multipart"` that `randomBoundary` starts from. -/
def boundaryStem : List Char := "------multipart".toList

/-- The full `effBoundary` built by `randomBoundary`: stem, 32 random letters,
then `'-', '-'` (the source's append chain, flattened). -/
def effB (rnd : Nat → Fin 64) : List Char := boundaryStem ++ randomChars rnd ++ ['-', '-']

/-- `this.boundary = this.effBoundary[2 : len(this.effBoundary)-2]`. -/
def genB (rnd : Nat → Fin 64) : List Char := ((effB rnd).drop 2).take ((effB rnd).length - 4)

/-- `type multipartRequestBody struct` of multipart.go.  `readerlist` holds
the byte content each queued `io.Reader` will emit; `boundary = none` is the
Go nil slice before generation. -/
structure MultipartRequestBody where
  readerlist : List String
  boundary : Option (List Char)
  effBoundary : List Char
  deriving DecidableEq, Repr

/-- The Go zero value of `multipartRequestBody` (`var m multipartRequestBody`). -/
def mpEmpty : MultipartRequestBody := ⟨[], none, []⟩

/-- `func (this *multipartRequestBody) randomBoundary()`. -/
def MultipartRequestBody.randomBoundary (m : MultipartRequestBody) (rnd : Nat → Fin 64) :
    MultipartRequestBody :=
  { m with effBoundary := effB rnd, boundary := some (genB rnd) }

/-- `boundaryReader`: generate the boundary if still nil, then a reader over
`effBoundary[:len(effBoundary)-2]`.  Returns the mutated state and the
reader's content. -/
def MultipartRequestBody.boundaryReader (m : MultipartRequestBody) (rnd : Nat → Fin 64) :
    MultipartRequestBody × String :=
  let m := if m.boundary = none then m.randomBoundary rnd else m
  (m, String.mk (m.effBoundary.take (m.effBoundary.length - 2)))

/-- `endBoundaryReader`: generate if nil, then a reader over all of `effBoundary`. -/
def MultipartRequestBody.endBoundaryReader (m : MultipartRequestBody) (rnd : Nat → Fin 64) :
    MultipartRequestBody × String :=
  let m := if m.boundary = none then m.randomBoundary rnd else m
  (m, String.mk m.effBoundary)

/-- `strings.NewReplacer("\\", "\\\\", "\"", "\\\"").Replace`: both patterns
are single characters, so the replacer is a character-wise rewrite. -/
def escapeQuotes (s : String) : String :=
  String.mk (s.toList.foldr
    (fun c acc =>
      if c = '\\' then '\\' :: '\\' :: acc
      else if c = '"' then '\\' :: '"' :: acc
      else c :: acc) [])

/-- `func (this *multipartRequestBody) addParam(key, value string)`. -/
def MultipartRequestBody.addParam (m : MultipartRequestBody) (rnd : Nat → Fin 64)
    (key value : String) : MultipartRequestBody :=
  let mb := m.boundaryReader rnd
  { mb.1 with readerlist := mb.1.readerlist ++
      [mb.2,
       "\r\nContent-Disposition: form-data; name=\"" ++ escapeQuotes key ++ "\"\r\n\r\n",
       value,
       "\r\n"] }

/-- `func (this *multipartRequestBody) addFileParam(key string, file FormFile)`. -/
def MultipartRequestBody.addFileParam (m : MultipartRequestBody) (rnd : Nat → Fin 64)
    (key : String) (file : FormFile) : MultipartRequestBody :=
  let mb := m.boundaryReader rnd
  { mb.1 with readerlist := mb.1.readerlist ++
      [mb.2,
       "\r\nContent-Disposition: form-data; name=\"" ++ escapeQuotes key ++
         "\"; filename=\"" ++ escapeQuotes file.Name ++
         "\"\r\nContent-Type: application/octet-stream\r\n\r\n",
       file.Data.content,
       "\r\n"] }

/-- `func (this *multipartRequestBody) close()`. -/
def MultipartRequestBody.close (m : MultipartRequestBody) (rnd : Nat → Fin 64) :
    MultipartRequestBody :=
  let mb := m.endBoundaryReader rnd
  { mb.1 with readerlist := mb.1.readerlist ++ [mb.2] }

/-- `toReader()`: `io.MultiReader` over the queued readers — their contents
concatenated in order, none copied early. -/
def MultipartRequestBody.toReader (m : MultipartRequestBody) : String :=
  String.join m.readerlist

/-- `contentType()`: generate the boundary if nil, then
`multipart/form-data; charset=utf-8; boundary="<boundary>"`.  Returns the
mutated state and the string (the `getD` default is unreachable: the
boundary was just generated if absent). -/
def MultipartRequestBody.contentType (m : MultipartRequestBody) (rnd : Nat → Fin 64) :
    MultipartRequestBody × String :=
  let m := if m.boundary = none then m.randomBoundary rnd else m
  (m, "multipart/form-data; charset=utf-8; boundary=\"" ++ String.mk (m.boundary.getD []) ++ "\"")

/-- The four-segment run `addParam` queues for one key/value pair, given the
body's (already generated) `effBoundary`. -/
def pSegs (eff : List Char) (kv : String × String) : List String :=
  [String.mk (eff.take (eff.length - 2)),
   "\r\nContent-Disposition: form-data; name=\"" ++ escapeQuotes kv.1 ++ "\"\r\n\r\n",
   kv.2,
   "\r\n"]

/-- The four-segment run `addFileParam` queues for one attachment. -/
def fSegs (eff : List Char) (kf : String × FormFile) : List String :=
  [String.mk (eff.take (eff.length - 2)),
   "\r\nContent-Disposition: form-data; name=\"" ++ escapeQuotes kf.1 ++
     "\"; filename=\"" ++ escapeQuotes kf.2.Name ++
     "\"\r\nContent-Type: application/octet-stream\r\n\r\n",
   kf.2.Data.content,
   "\r\n"]

/-- `type cachedBody struct { body []byte; mimetype string }`; `body = none`
is the Go nil slice. -/
structure CachedBody where
  body : Option String
  mimetype : String
  deriving DecidableEq, Repr

/-- A cookie, by name and value (`http.Cookie` fields the pipeline forwards). -/
structure Cookie where
  name : String
  value : String
  deriving DecidableEq, Repr

/-- A response decoder (`ResponseUnmarshaller`): `Unmarshal(bytes) error`,
`none` meaning a nil error. -/
def Decoder := String → Option String

/-- `type RequestImpl struct`.  The `ReqClient` back-reference is passed
explicitly to the operations that read it (`Target`, `URL`, `Do`); the
decoder slice is the `Response` field. -/
structure RequestImpl where
  URLPath : String
  Verb : HttpVerb
  QueryParams : Values
  FormParams : Values
  AutoParams : Values
  FormFiles : List (String × List FormFile)
  Headers : List (String × String)
  BasicUser : String
  BasicPassword : String
  Cookies : List Cookie
  ForceMultipart : Bool
  Response : List Decoder
  body : Option CachedBody

/-- `type ReqtifierImpl struct` — the fields the embedded operations read.
The rate limiter is a pure scheduling gate (no data flow) and the
`HttpClient`/`LastChance` collaborators are passed to `Do` explicitly. -/
structure ReqtifierImpl where
  Root : String
  AgentName : String

/-- `func (this *ReqtifierImpl) New(endpoint string) (Request)`. -/
def ReqtifierImpl.New (endpoint : String) : RequestImpl :=
  { URLPath := endpoint, Verb := GET, QueryParams := Values.empty,
    FormParams := Values.empty, AutoParams := Values.empty, FormFiles := [],
    Headers := [], BasicUser := "", BasicPassword := "", Cookies := [],
    ForceMultipart := false, Response := [], body := none }

/-- The key/value pairs of a bucket in iteration order, flattening the nested
`for k, va := range` / `for _, v := range va` loops. -/
def flatPairs (vs : Values) : List (String × String) :=
  (vs.map (fun kv => kv.2.map (fun v => (kv.1, v)))).flatten

/-- The key/attachment pairs of the `FormFiles` map, flattened the same way. -/
def flatFiles (ffs : List (String × List FormFile)) : List (String × FormFile) :=
  (ffs.map (fun kv => kv.2.map (fun f => (kv.1, f)))).flatten

/-- `func (this *RequestImpl) GetBody() (io.Reader, string)`.  The reader is
given by the bytes it will produce (`none` for the nil reader returned when
a cached body records a nil byte slice). -/
def RequestImpl.GetBody (req : RequestImpl) (rnd : Nat → Fin 64) : Option String × String :=
  match req.body with
  | some cb =>
    match cb.body with
    | none => (none, "")
    | some bs => (some bs, cb.mimetype)
  | none =>
    if req.ForceMultipart = true ∨ req.FormFiles.length ≠ 0 then
      let m := mpEmpty
      let m := (flatPairs req.FormParams).foldl (fun m p => m.addParam rnd p.1 p.2) m
      let m := if req.Verb ≠ GET then
          (flatPairs req.AutoParams).foldl (fun m p => m.addParam rnd p.1 p.2) m
        else m
      let m := (flatFiles req.FormFiles).foldl (fun m p => m.addFileParam rnd p.1 p.2) m
      let m := m.close rnd
      (some m.toReader, (m.contentType rnd).2)
    else
      let params := req.FormParams.encode
      let params := if req.AutoParams.length ≠ 0 ∧ req.Verb ≠ GET then
          (if params.length ≠ 0 then params ++ "&" else params) ++ req.AutoParams.encode
        else params
      (some params, "application/x-www-form-urlencoded")

/-- `func (this *RequestImpl) Path(path string)`. -/
def RequestImpl.Path (req : RequestImpl) (path : String) : RequestImpl :=
  { req with URLPath := path }

/-- `func (this *RequestImpl) Method(v HttpVerb)`. -/
def RequestImpl.Method (req : RequestImpl) (v : HttpVerb) : RequestImpl :=
  { req with Verb := v }

/-- `func (this *RequestImpl) Into(into ResponseUnmarshaller)` (the typed
`JSONInto`/`XMLInto` wrappers register a decoder built by the external
json/xml libraries through this same append). -/
def RequestImpl.Into (req : RequestImpl) (d : Decoder) : RequestImpl :=
  { req with Response := req.Response ++ [d] }

/-- Go map assignment `m[k] = v` on an association list: last write wins. -/
def assocSet : List (String × String) → String → String → List (String × String)
  | [], k, v => [(k, v)]
  | (k', v') :: rest, k, v =>
    if k' = k then (k, v) :: rest else (k', v') :: assocSet rest k v

/-- `func (this *RequestImpl) Header(key, value string)`: stores the
lower-cased key. -/
def RequestImpl.Header (req : RequestImpl) (key value : String) : RequestImpl :=
  { req with Headers := assocSet req.Headers key.toLower value }

/-- `func (this *RequestImpl) Cookie(c *http.Cookie)`. -/
def RequestImpl.Cookie (req : RequestImpl) (c : Cookie) : RequestImpl :=
  { req with Cookies := req.Cookies ++ [c] }

/-- `func (this *RequestImpl) BasicAuthentication(user, password string)`. -/
def RequestImpl.BasicAuthentication (req : RequestImpl) (user password : String) : RequestImpl :=
  { req with BasicUser := user, BasicPassword := password }

/-- `func (this *RequestImpl) Multipart()`. -/
def RequestImpl.Multipart (req : RequestImpl) : RequestImpl :=
  { req with ForceMultipart := true }

/-- `this.FormFiles[key] = append(this.FormFiles[key], FormFile{...})`. -/
def addFile : List (String × List FormFile) → String → FormFile → List (String × List FormFile)
  | [], k, f => [(k, [f])]
  | (k', fs) :: rest, k, f =>
    if k' = k then (k', fs ++ [f]) :: rest else (k', fs) :: addFile rest k f

/-- `func (this *RequestImpl) FileArg(key, filename string, data io.Reader)`. -/
def RequestImpl.FileArg (req : RequestImpl) (key filename : String) (data : DataSource) :
    RequestImpl :=
  { req with FormFiles := addFile req.FormFiles key { Name := filename, Data := data } }

/-- `ArgDefault`: `argDefaultHelper(key, value, def, this.AutoParams)`;
`none` when the helper's stringify panics. -/
def RequestImpl.ArgDefault (req : RequestImpl) (key : String) (value default : GoValue) :
    Option RequestImpl :=
  (argDefaultHelper key value default req.AutoParams).map
    (fun vs => { req with AutoParams := vs })

/-- `URLArgDefault`: the helper against `QueryParams`. -/
def RequestImpl.URLArgDefault (req : RequestImpl) (key : String) (value default : GoValue) :
    Option RequestImpl :=
  (argDefaultHelper key value default req.QueryParams).map
    (fun vs => { req with QueryParams := vs })

/-- `FormArgDefault`: the helper against `FormParams`. -/
def RequestImpl.FormArgDefault (req : RequestImpl) (key : String) (value default : GoValue) :
    Option RequestImpl :=
  (argDefaultHelper key value default req.FormParams).map
    (fun vs => { req with FormParams := vs })

/-- `Arg`: `argDefaultHelper(key, value, nil, this.AutoParams)`. -/
def RequestImpl.Arg (req : RequestImpl) (key : String) (value : GoValue) : Option RequestImpl :=
  (argDefaultHelper key value .vnil req.AutoParams).map
    (fun vs => { req with AutoParams := vs })

/-- `URLArg`: nil default against `QueryParams`. -/
def RequestImpl.URLArg (req : RequestImpl) (key : String) (value : GoValue) : Option RequestImpl :=
  (argDefaultHelper key value .vnil req.QueryParams).map
    (fun vs => { req with QueryParams := vs })

/-- `FormArg`: nil default against `FormParams`. -/
def RequestImpl.FormArg (req : RequestImpl) (key : String) (value : GoValue) : Option RequestImpl :=
  (argDefaultHelper key value .vnil req.FormParams).map
    (fun vs => { req with FormParams := vs })

/-- `func (this *RequestImpl) Target() (string)`. -/
def RequestImpl.Target (client : ReqtifierImpl) (req : RequestImpl) : String :=
  client.Root ++ req.URLPath

/-- `func (this *RequestImpl) URL() (string)`. -/
def RequestImpl.URL (client : ReqtifierImpl) (req : RequestImpl) : String :=
  let callURL := RequestImpl.Target client req
  let params := req.QueryParams.encode
  let params := if req.AutoParams.length ≠ 0 ∧ req.Verb = GET then
      (if params.length ≠ 0 then params ++ "&" else params) ++ req.AutoParams.encode
    else params
  if params.length ≠ 0 then callURL ++ "?" ++ params else callURL

/-- `func (this *RequestImpl) DebugPrint() (Request)`: resolve the body,
read it fully, store it as the cached body.  `ioutil.ReadAll` of the nil
reader (returned when a cached body records a nil slice) is a nil-interface
call — a panic, modelled as `none`; reads from the pure readers of this
model cannot fail.  The log line carries no data flow. -/
def RequestImpl.DebugPrint (req : RequestImpl) (rnd : Nat → Fin 64) : Option RequestImpl :=
  match RequestImpl.GetBody req rnd with
  | (none, _) => none
  | (some bs, mimetype) => some { req with body := some { body := some bs, mimetype := mimetype } }

/-- A response body as handed over by the transport (`stream`, with the
error its full read would give) or after the pipeline replaced it with the
`ioutil.NopCloser(bytes.NewReader(...))` copy (`buffered`). -/
inductive RespBody where
  | stream (content : String) (readErr : Option String)
  | buffered (content : String)
  deriving DecidableEq, Repr

/-- `*http.Response` — the field the pipeline touches. -/
structure Response where
  body : RespBody
  deriving DecidableEq, Repr

/-- `ioutil.ReadAll(resp.Body)`. -/
def readAllBody : RespBody → Except String String
  | .stream c none => .ok c
  | .stream _ (some e) => .error e
  | .buffered c => .ok c

/-- The outbound `*http.Request` as the pipeline assembles it.  Headers are
the request's own headers followed by the computed `Content-Type`, when one
was; `http.NewRequest` is modelled total (the verb constants and any root
string parse). -/
structure OutboundMsg where
  method : HttpVerb
  url : String
  body : Option String
  headers : List (String × String)
  basicAuth : Option (String × String)
  cookies : List Cookie

/-- Lines 166–196 of the pipeline's `Do`: URL, body (only for non-GET),
headers, content-type override, basic auth, cookies. -/
def buildOutbound (client : ReqtifierImpl) (rnd : Nat → Fin 64) (req : RequestImpl) :
    OutboundMsg :=
  let callURL := RequestImpl.URL client req
  let bt := if req.Verb ≠ GET then RequestImpl.GetBody req rnd else (none, "")
  { method := req.Verb
    url := callURL
    body := bt.1
    headers := req.Headers ++ (if bt.2 ≠ "" then [("Content-Type", bt.2)] else [])
    basicAuth := if req.BasicUser ≠ "" ∨ req.BasicPassword ≠ "" then
        some (req.BasicUser, req.BasicPassword)
      else none
    cookies := req.Cookies }

/-- `closer := file.Data.(io.ReadCloser)` for every queued attachment: the
unchecked downcast succeeds for every file exactly when each data source is
closable. -/
def allFilesClosable (ffs : List (String × List FormFile)) : Bool :=
  ffs.all (fun kv => kv.2.all (fun f => f.Data.closable))

/-- What `ReqtifierImpl.Do` produces: the `(*http.Response, error)` pair
plus whether the close-attachments loop ran to completion, or a panic (the
downcast of a non-closable data source). -/
inductive DoResult where
  | ret (resp : Option Response) (err : Option String) (closedAttachments : Bool)
  | panicked
  deriving DecidableEq, Repr

/-- The decoder loop's shadowed `err` variable: starts nil (the `ReadAll`
just succeeded), and each iteration runs `e := Unmarshal(body)` then
`if err != nil { err = e }` — overwriting only an already non-nil error. -/
def decodeLoopErr (ds : List Decoder) (bodyBytes : String) : Option String :=
  ds.foldl (fun err d => if err.isSome then d bodyBytes else err) none

/-- `func (this *ReqtifierImpl) Do(req *RequestImpl) (*http.Response, error)`.
The abstract transport (`this.HttpClient.Do`) is an explicit argument; the
rate-limiter wait has no data flow.  After a successful transport call each
attachment source is downcast to `io.ReadCloser` and closed (panicking on
the first source that is not one); with decoders registered the body is
fully read, replaced by a buffered copy, and every decoder runs — but the
loop's shadowed error (see `decodeLoopErr`) never reaches the returned
outer error, which is nil on this path. -/
def ReqtifierImpl.Do (client : ReqtifierImpl) (transport : OutboundMsg → Except String Response)
    (rnd : Nat → Fin 64) (req : RequestImpl) : DoResult :=
  let r := buildOutbound client rnd req
  match transport r with
  | .error e => .ret none (some e) false
  | .ok resp =>
    if allFilesClosable req.FormFiles then
      if req.Response.length ≠ 0 then
        match readAllBody resp.body with
        | .error e => .ret none (some e) true
        | .ok bodyBytes =>
          let resp2 : Response := { resp with body := .buffered bodyBytes }
          let _e := decodeLoopErr req.Response bodyBytes
          .ret (some resp2) none true
      else .ret (some resp) none true
    else .panicked

/-- The omission condition the source's default-argument helper actually
implements: raw equality, an absent value, or the stringified value equal to
the raw default (which can only hold when the default is itself a string). -/
def omitCond (value default : GoValue) : Prop :=
  goEq value default = true ∨ stringify value = .absent ∨
  ∃ s, stringify value = .present s ∧ strEqGoValue s default = true

/-- A fixed random source for concrete executions: every draw picks letter 0. -/
def rndA : Nat → Fin 64 := fun _ => 0

/-- A concrete client (the unit test's). -/
def clientA : ReqtifierImpl := { Root := "https://this.is.a.test", AgentName := "test" }

/-- A transport double that fails every call with "boom". -/
def transportBoom : OutboundMsg → Except String Response := fun _ => .error "boom"

/-- A transport double that fails every call with "error" (the unit test's). -/
def transportError : OutboundMsg → Except String Response := fun _ => .error "error"

/-- A transport double that answers every call with a streamed body "payload". -/
def transportPayload : OutboundMsg → Except String Response :=
  fun _ => .ok { body := .stream "payload" none }

/-- An attachment whose data source implements `io.ReadCloser`. -/
def fileClosableA : FormFile := { Name := "n.txt", Data := { content := "DATA", closable := true } }

/-- An attachment whose data source is a plain `io.Reader` (not closable). -/
def fileBareA : FormFile := { Name := "m.bin", Data := { content := "RAW", closable := false } }

/-- A POST request with one registered decoder that fails on every payload. -/
def reqDecodeA : RequestImpl :=
  { ReqtifierImpl.New "/test" with Verb := POST, Response := [fun _ => some "decode failure"] }

/-- A POST request with one closable attachment. -/
def reqClosableA : RequestImpl :=
  { ReqtifierImpl.New "/up" with Verb := POST, FormFiles := [("file", [fileClosableA])] }

/-- A POST request with one non-closable attachment. -/
def reqBareFileA : RequestImpl :=
  { ReqtifierImpl.New "/up2" with Verb := POST, FormFiles := [("file", [fileBareA])] }

/-- A request already in cached-body mode. -/
def reqCachedA : RequestImpl :=
  { ReqtifierImpl.New "/t" with body := some { body := some "test", mimetype := "testmime" } }

/-- The unit test's second scenario: a PATCH request with a pre-cached body. -/
def reqPatchA : RequestImpl :=
  { ReqtifierImpl.New "/test2" with
    Verb := PATCH,
    body := some { body := some "test", mimetype := "testmime" } }

/-- A GET request carrying query, form and auto arguments. -/
def reqGetA : RequestImpl :=
  { ReqtifierImpl.New "/test" with
    QueryParams := [("q", ["x"])],
    FormParams := [("f", ["1"])],
    AutoParams := [("a", ["2"])] }

/-- A POST request carrying form and auto arguments (urlencoded body). -/
def reqPostA : RequestImpl :=
  { ReqtifierImpl.New "/x" with
    Verb := POST,
    FormParams := [("f", ["1"])],
    AutoParams := [("a", ["2"])] }

theorem values_count_add (vs : Values) (k v : String) :
    (vs.add k v).count = vs.count + 1 := by
  induction vs with
  | nil => rfl
  | cons p rest ih =>
    obtain ⟨k', l⟩ := p
    simp only [Values.add]
    split
    · simp [Values.count]
      omega
    · simp [Values.count, ih]
      omega

theorem values_add_ne (vs : Values) (k v : String) : vs.add k v ≠ vs := by
  intro h
  have := values_count_add vs k v
  rw [h] at this
  omega

/-- The decoder loop's shadowed error is nil whatever the decoders do: it
starts nil and is only ever overwritten when already non-nil. -/
theorem decodeLoopErr_eq_none (ds : List Decoder) (bodyBytes : String) :
    decodeLoopErr ds bodyBytes = none := by
  have h : ∀ (l : List Decoder),
      l.foldl (fun (err : Option String) d => if err.isSome then d bodyBytes else err) none =
        none := by
    intro l
    induction l with
    | nil => rfl
    | cons d l ih => simpa using ih
  exact h ds

theorem mp_addParam_some (m : MultipartRequestBody) (rnd : Nat → Fin 64) (k v : String)
    (b : List Char) (h : m.boundary = some b) :
    m.addParam rnd k v = { m with readerlist := m.readerlist ++ pSegs m.effBoundary (k, v) } := by
  simp [MultipartRequestBody.addParam, MultipartRequestBody.boundaryReader, h, pSegs]

theorem mp_addFileParam_some (m : MultipartRequestBody) (rnd : Nat → Fin 64) (k : String)
    (f : FormFile) (b : List Char) (h : m.boundary = some b) :
    m.addFileParam rnd k f = { m with readerlist := m.readerlist ++ fSegs m.effBoundary (k, f) } := by
  simp [MultipartRequestBody.addFileParam, MultipartRequestBody.boundaryReader, h, fSegs]

theorem mp_close_some (m : MultipartRequestBody) (rnd : Nat → Fin 64)
    (b : List Char) (h : m.boundary = some b) :
    m.close rnd = { m with readerlist := m.readerlist ++ [String.mk m.effBoundary] } := by
  simp [MultipartRequestBody.close, MultipartRequestBody.endBoundaryReader, h]

theorem mp_contentType_some (m : MultipartRequestBody) (rnd : Nat → Fin 64)
    (b : List Char) (h : m.boundary = some b) :
    m.contentType rnd =
      (m, "multipart/form-data; charset=utf-8; boundary=\"" ++ String.mk b ++ "\"") := by
  simp [MultipartRequestBody.contentType, h]

theorem mp_addParam_none (m : MultipartRequestBody) (rnd : Nat → Fin 64) (k v : String)
    (h : m.boundary = none) :
    m.addParam rnd k v =
      { readerlist := m.readerlist ++ pSegs (effB rnd) (k, v),
        boundary := some (genB rnd), effBoundary := effB rnd } := by
  simp [MultipartRequestBody.addParam, MultipartRequestBody.boundaryReader, h,
    MultipartRequestBody.randomBoundary, pSegs]

theorem mp_addFileParam_none (m : MultipartRequestBody) (rnd : Nat → Fin 64) (k : String)
    (f : FormFile) (h : m.boundary = none) :
    m.addFileParam rnd k f =
      { readerlist := m.readerlist ++ fSegs (effB rnd) (k, f),
        boundary := some (genB rnd), effBoundary := effB rnd } := by
  simp [MultipartRequestBody.addFileParam, MultipartRequestBody.boundaryReader, h,
    MultipartRequestBody.randomBoundary, fSegs]

theorem mp_close_none (m : MultipartRequestBody) (rnd : Nat → Fin 64)
    (h : m.boundary = none) :
    m.close rnd =
      { readerlist := m.readerlist ++ [String.mk (effB rnd)],
        boundary := some (genB rnd), effBoundary := effB rnd } := by
  simp [MultipartRequestBody.close, MultipartRequestBody.endBoundaryReader, h,
    MultipartRequestBody.randomBoundary]

theorem mp_contentType_none (m : MultipartRequestBody) (rnd : Nat → Fin 64)
    (h : m.boundary = none) :
    m.contentType rnd =
      ({ m with boundary := some (genB rnd), effBoundary := effB rnd },
       "multipart/form-data; charset=utf-8; boundary=\"" ++ String.mk (genB rnd) ++ "\"") := by
  simp [MultipartRequestBody.contentType, h, MultipartRequestBody.randomBoundary]

theorem addParams_fold (rnd : Nat → Fin 64) (ps : List (String × String)) :
    ∀ (m : MultipartRequestBody) (b : List Char), m.boundary = some b →
    ps.foldl (fun m p => m.addParam rnd p.1 p.2) m =
      { m with readerlist := m.readerlist ++ (ps.map (pSegs m.effBoundary)).flatten } := by
  induction ps with
  | nil => intro m b h; simp
  | cons p ps ih =>
    intro m b h
    simp only [List.foldl_cons]
    rw [mp_addParam_some m rnd p.1 p.2 b h]
    rw [ih _ b (by simp [h])]
    simp

theorem addFiles_fold (rnd : Nat → Fin 64) (fs : List (String × FormFile)) :
    ∀ (m : MultipartRequestBody) (b : List Char), m.boundary = some b →
    fs.foldl (fun m p => m.addFileParam rnd p.1 p.2) m =
      { m with readerlist := m.readerlist ++ (fs.map (fSegs m.effBoundary)).flatten } := by
  induction fs with
  | nil => intro m b h; simp
  | cons f fs ih =>
    intro m b h
    simp only [List.foldl_cons]
    rw [mp_addFileParam_some m rnd f.1 f.2 b h]
    rw [ih _ b (by simp [h])]
    simp

/-- Building a multipart body from scratch: parameters, then attachments,
then the terminator, all referencing the one boundary generated at the
first operation that needed it. -/
theorem buildMp_spec (rnd : Nat → Fin 64) (ps : List (String × String))
    (fs : List (String × FormFile)) :
    ((fs.foldl (fun m p => m.addFileParam rnd p.1 p.2)
        (ps.foldl (fun m p => m.addParam rnd p.1 p.2) mpEmpty)).close rnd) =
      { readerlist := (ps.map (pSegs (effB rnd))).flatten ++
          (fs.map (fSegs (effB rnd))).flatten ++ [String.mk (effB rnd)],
        boundary := some (genB rnd), effBoundary := effB rnd } := by
  cases ps with
  | cons p ps =>
    simp only [List.foldl_cons]
    rw [mp_addParam_none mpEmpty rnd p.1 p.2 rfl]
    rw [addParams_fold rnd ps _ (genB rnd) rfl]
    rw [addFiles_fold rnd fs _ (genB rnd) (by simp)]
    rw [mp_close_some _ rnd (genB rnd) (by simp)]
    simp [mpEmpty]
  | nil =>
    cases fs with
    | cons f fs =>
      simp only [List.foldl_cons, List.foldl_nil]
      rw [mp_addFileParam_none mpEmpty rnd f.1 f.2 rfl]
      rw [addFiles_fold rnd fs _ (genB rnd) rfl]
      rw [mp_close_some _ rnd (genB rnd) (by simp)]
      simp [mpEmpty]
    | nil =>
      simp only [List.foldl_nil]
      rw [mp_close_none mpEmpty rnd rfl]
      simp [mpEmpty]

theorem randomChars_length (rnd : Nat → Fin 64) : (randomChars rnd).length = 32 := by
  simp [randomChars]

theorem randomChars_mem_letters (rnd : Nat → Fin 64) :
    ∀ c ∈ randomChars rnd, c ∈ letters := by
  intro c hc
  simp only [randomChars, List.mem_map] at hc
  obtain ⟨i, _, rfl⟩ := hc
  have hj : ((rnd i).val) < letters.length := by
    have h64 : letters.length = 64 := by decide
    have := (rnd i).isLt
    omega
  rw [List.getD_eq_getElem _ _ hj]
  exact List.getElem_mem hj

/-- The generated boundary is the fixed stem `----multipart` followed by the
32 random letters. -/
theorem genB_eq (rnd : Nat → Fin 64) : genB rnd = "----multipart".toList ++ randomChars rnd := by
  have hstem : boundaryStem = '-' :: '-' :: "----multipart".toList := by decide
  have hA : ("----multipart".toList).length = 13 := by decide
  have hrc := randomChars_length rnd
  have heff : effB rnd = '-' :: '-' :: ("----multipart".toList ++ randomChars rnd ++ ['-', '-']) := by
    rw [effB, hstem]; simp
  have hlen : (effB rnd).length = 49 := by
    rw [heff]; simp [hrc, hA]
  rw [genB, hlen, heff]
  simp only [List.drop_succ_cons, List.drop_zero]
  have htl := @List.take_left' Char ("----multipart".toList ++ randomChars rnd) ['-', '-'] 45
    (by simp [hA, hrc])
  rw [List.append_assoc] at htl
  simpa using htl

theorem argDefaultHelper_omits_iff (key : String) (value default : GoValue) (vs : Values) :
    (argDefaultHelper key value default vs = some vs ↔ omitCond value default) := by
  unfold argDefaultHelper omitCond
  by_cases hg : goEq value default = true
  · simp [hg]
  · simp only [hg, Bool.false_eq_true, if_false, false_or]
    cases hs : stringify value with
    | panicked => simp [hs]
    | absent => simp [hs]
    | present s =>
      by_cases hse : strEqGoValue s default = true
      · simp [hs, hse]
      · simp only [hs, hse, Bool.false_eq_true, if_false, Option.some.injEq]
        constructor
        · intro h; exact absurd h (values_add_ne vs key s)
        · rintro (h | ⟨s', hs', hse'⟩)
          · exact absurd h (by simp)
          · cases hs'
            exact absurd hse' hse

theorem argDefaultHelper_adds (key : String) (value default : GoValue) (vs : Values)
    (s : String) (hp : stringify value = .present s) (hg : goEq value default = false)
    (hse : strEqGoValue s default = false) :
    argDefaultHelper key value default vs = some (vs.add key s) := by
  unfold argDefaultHelper
  rw [if_neg (by simp [hg]), hp]
  simp [hse]

theorem argDefaultHelper_panics (key : String) (value default : GoValue) (vs : Values)
    (hg : goEq value default = false) (hp : stringify value = .panicked) :
    argDefaultHelper key value default vs = none := by
  unfold argDefaultHelper
  rw [if_neg (by simp [hg]), hp]

theorem ArgDefault_map_auto (req : RequestImpl) (key : String) (value default : GoValue) :
    (req.ArgDefault key value default).map RequestImpl.AutoParams =
      argDefaultHelper key value default req.AutoParams := by
  unfold RequestImpl.ArgDefault
  cases argDefaultHelper key value default req.AutoParams <;> simp

theorem URLArgDefault_map_query (req : RequestImpl) (key : String) (value default : GoValue) :
    (req.URLArgDefault key value default).map RequestImpl.QueryParams =
      argDefaultHelper key value default req.QueryParams := by
  unfold RequestImpl.URLArgDefault
  cases argDefaultHelper key value default req.QueryParams <;> simp

theorem FormArgDefault_map_form (req : RequestImpl) (key : String) (value default : GoValue) :
    (req.FormArgDefault key value default).map RequestImpl.FormParams =
      argDefaultHelper key value default req.FormParams := by
  unfold RequestImpl.FormArgDefault
  cases argDefaultHelper key value default req.FormParams <;> simp

/-- C3 (counterexample): with value `"3"` (a string) and default `3` (an int),
the stringified value and stringified default agree, yet `ArgDefault` adds
the key: the helper compares the stringified value with the raw default, not
with the stringified default. -/
theorem C3_counterexample :
    goEq (.vstring "3") (.vint 3) = false ∧
    stringify (.vstring "3") = stringify (.vint 3) ∧
    ((RequestImpl.ArgDefault (ReqtifierImpl.New "/c") "k" (.vstring "3") (.vint 3)).map
        RequestImpl.AutoParams) = some [("k", ["3"])] := by
  refine ⟨rfl, ?_, rfl⟩
  show StringifyResult.present "3" = StringifyResult.present (toString (3 : Int))
  rfl

/-- C3 (amended): `ArgDefault`/`URLArgDefault`/`FormArgDefault` leave their
bucket unchanged exactly when the raw value equals the raw default, the value
is absent (nil or nil pointer), or the stringified value equals the raw
default (possible only for a string default); when the value stringifies and
neither equality holds they add the stringified value under the key; when the
value is of an unsupported kind and differs from the default, the call
panics (stringify aborts). -/
theorem C3_amended_default_omission (key : String) (value default : GoValue)
    (req : RequestImpl) :
    ((req.ArgDefault key value default).map RequestImpl.AutoParams = some req.AutoParams ↔
      omitCond value default) ∧
    ((req.URLArgDefault key value default).map RequestImpl.QueryParams = some req.QueryParams ↔
      omitCond value default) ∧
    ((req.FormArgDefault key value default).map RequestImpl.FormParams = some req.FormParams ↔
      omitCond value default) ∧
    (∀ s, stringify value = .present s → goEq value default = false →
      strEqGoValue s default = false →
      (req.ArgDefault key value default).map RequestImpl.AutoParams =
        some (req.AutoParams.add key s) ∧
      (req.URLArgDefault key value default).map RequestImpl.QueryParams =
        some (req.QueryParams.add key s) ∧
      (req.FormArgDefault key value default).map RequestImpl.FormParams =
        some (req.FormParams.add key s)) ∧
    (goEq value default = false → stringify value = .panicked →
      req.ArgDefault key value default = none ∧
      req.URLArgDefault key value default = none ∧
      req.FormArgDefault key value default = none) := by
  refine ⟨?_, ?_, ?_, ?_, ?_⟩
  · rw [ArgDefault_map_auto]; exact argDefaultHelper_omits_iff key value default req.AutoParams
  · rw [URLArgDefault_map_query]; exact argDefaultHelper_omits_iff key value default req.QueryParams
  · rw [FormArgDefault_map_form]; exact argDefaultHelper_omits_iff key value default req.FormParams
  · intro s hp hg hse
    refine ⟨?_, ?_, ?_⟩
    · rw [ArgDefault_map_auto]; exact argDefaultHelper_adds key value default _ s hp hg hse
    · rw [URLArgDefault_map_query]; exact argDefaultHelper_adds key value default _ s hp hg hse
    · rw [FormArgDefault_map_form]; exact argDefaultHelper_adds key value default _ s hp hg hse
  · intro hg hp
    refine ⟨?_, ?_, ?_⟩ <;>
      simp [RequestImpl.ArgDefault, RequestImpl.URLArgDefault, RequestImpl.FormArgDefault,
        argDefaultHelper_panics key value default _ hg hp]

/-- C3 amended claim exercised concretely: an int value 5 against the nil
default of plain `Arg` routing is included as "5". -/
theorem C3_amended_witness :
    (RequestImpl.ArgDefault (ReqtifierImpl.New "/w") "k" (.vint 5) .vnil).map
        RequestImpl.AutoParams = some (Values.add Values.empty "k" "5") :=
  ((C3_amended_default_omission "k" (.vint 5) .vnil (ReqtifierImpl.New "/w")).2.2.2.1
    "5" rfl rfl rfl).1

/-- C1: the pipeline is claimed to return the last failing decoder's error
alongside the response; the code instead discards every decoder error.  At a
concrete request whose single registered decoder fails on the received body,
`Do` returns the response with a nil error: the loop's shadowed error
variable is only overwritten when already non-nil and the returned outer
error is the (nil) transport error. -/
theorem C1_decoder_error_discarded :
    (reqDecodeA.Response.map (fun d => d "payload") = [some "decode failure"]) ∧
    ReqtifierImpl.Do clientA transportPayload rndA reqDecodeA =
      .ret (some { body := .buffered "payload" }) none true :=
  ⟨rfl, rfl⟩

/-- C2 (counterexample): a request with one closable attachment answered by a
transport error returns before the close loop runs — the attachment is not
closed on the error exit path, against the claim's "on every exit path". -/
theorem C2_counterexample :
    allFilesClosable reqClosableA.FormFiles = true ∧
    reqClosableA.FormFiles ≠ [] ∧
    ReqtifierImpl.Do clientA transportBoom rndA reqClosableA =
      .ret none (some "boom") false := by
  refine ⟨rfl, ?_, rfl⟩
  simp [reqClosableA]

/-- C2 (amended): closable attachment sources are closed after the transport
call only when it returns a response; when the transport returns an error,
`Do` returns that error with no response and without running the close loop. -/
theorem C2_amended_close_on_success_only (client : ReqtifierImpl)
    (transport : OutboundMsg → Except String Response) (rnd : Nat → Fin 64)
    (req : RequestImpl) (hclos : allFilesClosable req.FormFiles = true) :
    (∀ e, transport (buildOutbound client rnd req) = .error e →
      ReqtifierImpl.Do client transport rnd req = .ret none (some e) false) ∧
    (∀ resp, transport (buildOutbound client rnd req) = .ok resp →
      ∃ ro err, ReqtifierImpl.Do client transport rnd req = .ret ro err true) := by
  constructor
  · intro e he
    simp [ReqtifierImpl.Do, he]
  · intro resp hr
    by_cases hl : req.Response.length ≠ 0
    · cases hb : readAllBody resp.body with
      | error e => exact ⟨none, some e, by simp [ReqtifierImpl.Do, hr, hclos, hl, hb]⟩
      | ok bs =>
        exact ⟨some { body := .buffered bs }, none,
          by simp [ReqtifierImpl.Do, hr, hclos, hl, hb]⟩
    · exact ⟨some resp, none, by simp [ReqtifierImpl.Do, hr, hclos, hl]⟩

/-- C2 amended claim exercised concretely on the closable-attachment request
with a failing transport. -/
theorem C2_amended_witness :
    ReqtifierImpl.Do clientA transportBoom rndA reqClosableA =
      .ret none (some "boom") false :=
  (C2_amended_close_on_success_only clientA transportBoom rndA reqClosableA rfl).1 "boom" rfl

/-- C6: with decoders registered and a successful transport call whose body
streams cleanly, `Do` fully reads the body and hands the caller a response
whose body is the buffered copy of exactly the received bytes. -/
theorem C6_body_buffered_copy (client : ReqtifierImpl)
    (transport : OutboundMsg → Except String Response) (rnd : Nat → Fin 64)
    (req : RequestImpl) (resp : Response) (bytes : String)
    (hdec : req.Response.length ≠ 0)
    (hclos : allFilesClosable req.FormFiles = true)
    (htr : transport (buildOutbound client rnd req) = .ok resp)
    (hbody : resp.body = .stream bytes none) :
    ReqtifierImpl.Do client transport rnd req =
      .ret (some { body := .buffered bytes }) none true := by
  simp [ReqtifierImpl.Do, htr, hclos, hdec, hbody, readAllBody]

/-- C6 exercised concretely: the decoder-carrying request against the
"payload" transport double. -/
theorem C6_witness :
    ReqtifierImpl.Do clientA transportPayload rndA reqDecodeA =
      .ret (some { body := .buffered "payload" }) none true :=
  C6_body_buffered_copy clientA transportPayload rndA reqDecodeA
    { body := .stream "payload" none } "payload" (by decide) rfl rfl rfl

/-- C8: a PATCH request in cached-body mode answered by a transport error
yields a nil response and exactly that error, and the message handed to the
transport carried the cached content-type in its Content-Type header. -/
theorem C8_patch_cached_transport_error (client : ReqtifierImpl)
    (transport : OutboundMsg → Except String Response) (rnd : Nat → Fin 64)
    (req : RequestImpl) (e bs mt : String)
    (hverb : req.Verb = PATCH)
    (hcache : req.body = some { body := some bs, mimetype := mt })
    (hmt : mt ≠ "")
    (htr : transport (buildOutbound client rnd req) = .error e) :
    ReqtifierImpl.Do client transport rnd req = .ret none (some e) false ∧
    ("Content-Type", mt) ∈ (buildOutbound client rnd req).headers := by
  constructor
  · simp [ReqtifierImpl.Do, htr]
  · simp [buildOutbound, RequestImpl.GetBody, hcache, hverb, hmt, PATCH, GET]

/-- C8 exercised concretely: the unit test's PATCH scenario. -/
theorem C8_witness :
    ReqtifierImpl.Do clientA transportError rndA reqPatchA = .ret none (some "error") false ∧
    ("Content-Type", "testmime") ∈ (buildOutbound clientA rndA reqPatchA).headers :=
  C8_patch_cached_transport_error clientA transportError rndA reqPatchA
    "error" "test" "testmime" rfl rfl (by decide) rfl

/-- C9: for a GET request the outbound message is built with a nil body and
no computed Content-Type header, and it is unaffected by form-bucket
parameters, file attachments and the force-multipart flag. -/
theorem C9_get_bodyless (client : ReqtifierImpl) (rnd : Nat → Fin 64)
    (req : RequestImpl) (h : req.Verb = GET) :
    (buildOutbound client rnd req).body = none ∧
    (buildOutbound client rnd req).headers = req.Headers ∧
    (∀ fp ff fm, buildOutbound client rnd
        { req with FormParams := fp, FormFiles := ff, ForceMultipart := fm } =
      buildOutbound client rnd req) := by
  refine ⟨?_, ?_, ?_⟩ <;>
    simp [buildOutbound, RequestImpl.URL, RequestImpl.Target, h]

/-- C9 exercised concretely on a GET request carrying form params and
query/auto arguments. -/
theorem C9_witness :
    (buildOutbound clientA rndA reqGetA).body = none ∧
    (buildOutbound clientA rndA reqGetA).headers = reqGetA.Headers :=
  ⟨(C9_get_bodyless clientA rndA reqGetA rfl).1, (C9_get_bodyless clientA rndA reqGetA rfl).2.1⟩

/-- C10: after a successful transport call the pipeline downcasts every
attachment data source to `io.ReadCloser` without an ok-check; one attachment
whose source is not closable makes `Do` panic instead of returning, before
any decoder runs. -/
theorem C10_nonclosable_download_panics (client : ReqtifierImpl)
    (transport : OutboundMsg → Except String Response) (rnd : Nat → Fin 64)
    (req : RequestImpl) (resp : Response)
    (htr : transport (buildOutbound client rnd req) = .ok resp)
    (hbad : allFilesClosable req.FormFiles = false) :
    ReqtifierImpl.Do client transport rnd req = .panicked := by
  simp [ReqtifierImpl.Do, htr, hbad]

/-- C10 exercised concretely: a request with a plain-reader attachment and a
succeeding transport panics. -/
theorem C10_witness :
    ReqtifierImpl.Do clientA transportPayload rndA reqBareFileA = .panicked :=
  C10_nonclosable_download_panics clientA transportPayload rndA reqBareFileA
    { body := .stream "payload" none } rfl rfl

/-- C7: the multipart boundary is generated lazily by whichever of
`addParam`, `addFileParam`, `close` or `contentType` first needs it, is
stable under every later operation, and `contentType` renders it as
`multipart/form-data; charset=utf-8; boundary="<boundary>"` where the
boundary is the fixed stem `----multipart` followed by 32 characters drawn
from the letter table `[a-zA-Z0-9._]`. -/
theorem C7_boundary_lazy_once_stable (rnd : Nat → Fin 64) (m : MultipartRequestBody)
    (key value : String) (f : FormFile) :
    (m.boundary = none →
      (m.addParam rnd key value).boundary = some (genB rnd) ∧
      (m.addFileParam rnd key f).boundary = some (genB rnd) ∧
      (m.close rnd).boundary = some (genB rnd) ∧
      (m.contentType rnd).1.boundary = some (genB rnd) ∧
      (m.contentType rnd).2 =
        "multipart/form-data; charset=utf-8; boundary=\"" ++ String.mk (genB rnd) ++ "\"") ∧
    (∀ b, m.boundary = some b →
      (m.addParam rnd key value).boundary = some b ∧
      (m.addFileParam rnd key f).boundary = some b ∧
      (m.close rnd).boundary = some b ∧
      (m.contentType rnd).1.boundary = some b ∧
      (m.contentType rnd).2 =
        "multipart/form-data; charset=utf-8; boundary=\"" ++ String.mk b ++ "\"") ∧
    (genB rnd = "----multipart".toList ++ randomChars rnd ∧
      (randomChars rnd).length = 32 ∧ ∀ c ∈ randomChars rnd, c ∈ letters) := by
  refine ⟨?_, ?_, genB_eq rnd, randomChars_length rnd, randomChars_mem_letters rnd⟩
  · intro h
    rw [mp_addParam_none m rnd key value h, mp_addFileParam_none m rnd key f h,
      mp_close_none m rnd h, mp_contentType_none m rnd h]
    simp
  · intro b h
    rw [mp_addParam_some m rnd key value b h, mp_addFileParam_some m rnd key f b h,
      mp_close_some m rnd b h, mp_contentType_some m rnd b h]
    simp [h]

/-- C7 exercised concretely from the zero-valued body: `contentType` on the
fresh body generates the boundary once. -/
theorem C7_witness :
    (mpEmpty.contentType rndA).1.boundary = some (genB rndA) ∧
    (mpEmpty.contentType rndA).2 =
      "multipart/form-data; charset=utf-8; boundary=\"" ++ String.mk (genB rndA) ++ "\"" := by
  have h := (C7_boundary_lazy_once_stable rndA mpEmpty "k" "v" fileClosableA).1 rfl
  exact ⟨h.2.2.2.1, h.2.2.2.2⟩

/-- C4: auto-bucket arguments are routed by verb.  For a GET request the
outbound body is nil and the URL appends the auto bucket's encoding after
the explicit query bucket, joined with `&`; for every other verb the URL
carries only the query bucket, while the body merges the auto bucket after
the form bucket — appended to the form encoding in the urlencoded case, and
queued as parameter segments after the form pairs (before the attachments)
in the multipart case. -/
theorem C4_auto_bucket_routing (client : ReqtifierImpl) (rnd : Nat → Fin 64)
    (req : RequestImpl) (hnc : req.body = none) :
    (req.Verb = GET →
      (buildOutbound client rnd req).body = none ∧
      RequestImpl.URL client req =
        (let qs := req.QueryParams.encode
         let ps := if req.AutoParams.length ≠ 0 then
             (if qs.length ≠ 0 then qs ++ "&" else qs) ++ req.AutoParams.encode
           else qs
         if ps.length ≠ 0 then RequestImpl.Target client req ++ "?" ++ ps
         else RequestImpl.Target client req)) ∧
    (req.Verb ≠ GET →
      RequestImpl.URL client req =
        (if (req.QueryParams.encode).length ≠ 0 then
           RequestImpl.Target client req ++ "?" ++ req.QueryParams.encode
         else RequestImpl.Target client req) ∧
      (req.ForceMultipart = false ∧ req.FormFiles = [] →
        RequestImpl.GetBody req rnd =
          (some (if req.AutoParams.length ≠ 0 then
              (if (req.FormParams.encode).length ≠ 0 then req.FormParams.encode ++ "&"
               else req.FormParams.encode) ++ req.AutoParams.encode
            else req.FormParams.encode),
           "application/x-www-form-urlencoded")) ∧
      (req.ForceMultipart = true ∨ req.FormFiles ≠ [] →
        (RequestImpl.GetBody req rnd).1 =
          some (String.join (
            ((flatPairs req.FormParams ++ flatPairs req.AutoParams).map
                (pSegs (effB rnd))).flatten ++
            ((flatFiles req.FormFiles).map (fSegs (effB rnd))).flatten ++
            [String.mk (effB rnd)])))) := by
  constructor
  · intro h
    constructor
    · simp [buildOutbound, h]
    · simp [RequestImpl.URL, h]
  · intro h
    refine ⟨?_, ?_, ?_⟩
    · simp [RequestImpl.URL, h]
    · rintro ⟨hfm, hff⟩
      simp [RequestImpl.GetBody, hnc, hfm, hff, h]
    · intro hmp
      have hguard : req.ForceMultipart = true ∨ req.FormFiles.length ≠ 0 := by
        rcases hmp with h1 | h1
        · exact Or.inl h1
        · exact Or.inr (by simpa using h1)
      simp only [RequestImpl.GetBody, hnc]
      rw [if_pos hguard, if_pos h]
      rw [← List.foldl_append]
      rw [buildMp_spec rnd (flatPairs req.FormParams ++ flatPairs req.AutoParams)
        (flatFiles req.FormFiles)]
      simp [MultipartRequestBody.toReader]

/-- C4 exercised concretely: a POST request with one form and one auto
argument gets the urlencoded body with the auto bucket after the form
bucket. -/
theorem C4_witness :
    RequestImpl.GetBody reqPostA rndA = (some "f=1&a=2", "application/x-www-form-urlencoded") := by
  have h := ((C4_auto_bucket_routing clientA rndA reqPostA rfl).2 (by decide)).2.1 ⟨rfl, rfl⟩
  rw [h]
  rfl

/-- C5: in cached-body mode `GetBody` answers from the cache alone — the
cached bytes with the cached content-type, or the nil reader when the cache
records a nil byte slice — independently of every argument bucket, and no
builder operation (nor `DebugPrint` itself) ever clears the cache: the
transition is one-way. -/
theorem C5_cached_body_one_way (rnd : Nat → Fin 64) (req : RequestImpl) (cb : CachedBody)
    (h : req.body = some cb) :
    (RequestImpl.GetBody req rnd =
      (match cb.body with
       | none => (none, "")
       | some bs => (some bs, cb.mimetype))) ∧
    (∀ fp ap qp ff fm vb,
      RequestImpl.GetBody { req with FormParams := fp, AutoParams := ap, QueryParams := qp, FormFiles := ff, ForceMultipart := fm, Verb := vb } rnd =
        RequestImpl.GetBody req rnd) ∧
    (∀ p, (req.Path p).body = some cb) ∧
    (∀ v, (req.Method v).body = some cb) ∧
    (∀ k v, (RequestImpl.Header req k v).body = some cb) ∧
    (∀ c, (req.Cookie c).body = some cb) ∧
    (∀ u pw, (req.BasicAuthentication u pw).body = some cb) ∧
    (req.Multipart.body = some cb) ∧
    (∀ d, (req.Into d).body = some cb) ∧
    (∀ k fn ds, (req.FileArg k fn ds).body = some cb) ∧
    (∀ k v req', req.Arg k v = some req' → req'.body = some cb) ∧
    (∀ k v req', req.URLArg k v = some req' → req'.body = some cb) ∧
    (∀ k v req', req.FormArg k v = some req' → req'.body = some cb) ∧
    (∀ k v d req', req.ArgDefault k v d = some req' → req'.body = some cb) ∧
    (∀ k v d req', req.URLArgDefault k v d = some req' → req'.body = some cb) ∧
    (∀ k v d req', req.FormArgDefault k v d = some req' → req'.body = some cb) ∧
    (∀ req', req.DebugPrint rnd = some req' → req'.body = some cb) := by
  refine ⟨?_, ?_, ?_, ?_, ?_, ?_, ?_, ?_, ?_, ?_, ?_, ?_, ?_, ?_, ?_, ?_, ?_⟩
  · simp only [RequestImpl.GetBody, h]
  · intro fp ap qp ff fm vb
    simp only [RequestImpl.GetBody, h]
  · intro p; simp [RequestImpl.Path, h]
  · intro v; simp [RequestImpl.Method, h]
  · intro k v; simp [RequestImpl.Header, h]
  · intro c; simp [RequestImpl.Cookie, h]
  · intro u pw; simp [RequestImpl.BasicAuthentication, h]
  · simp [RequestImpl.Multipart, h]
  · intro d; simp [RequestImpl.Into, h]
  · intro k fn ds; simp [RequestImpl.FileArg, h]
  · intro k v req' hr
    unfold RequestImpl.Arg at hr
    cases hh : argDefaultHelper k v .vnil req.AutoParams with
    | none => rw [hh] at hr; cases hr
    | some vs => rw [hh] at hr; cases hr; simp [h]
  · intro k v req' hr
    unfold RequestImpl.URLArg at hr
    cases hh : argDefaultHelper k v .vnil req.QueryParams with
    | none => rw [hh] at hr; cases hr
    | some vs => rw [hh] at hr; cases hr; simp [h]
  · intro k v req' hr
    unfold RequestImpl.FormArg at hr
    cases hh : argDefaultHelper k v .vnil req.FormParams with
    | none => rw [hh] at hr; cases hr
    | some vs => rw [hh] at hr; cases hr; simp [h]
  · intro k v d req' hr
    unfold RequestImpl.ArgDefault at hr
    cases hh : argDefaultHelper k v d req.AutoParams with
    | none => rw [hh] at hr; cases hr
    | some vs => rw [hh] at hr; cases hr; simp [h]
  · intro k v d req' hr
    unfold RequestImpl.URLArgDefault at hr
    cases hh : argDefaultHelper k v d req.QueryParams with
    | none => rw [hh] at hr; cases hr
    | some vs => rw [hh] at hr; cases hr; simp [h]
  · intro k v d req' hr
    unfold RequestImpl.FormArgDefault at hr
    cases hh : argDefaultHelper k v d req.FormParams with
    | none => rw [hh] at hr; cases hr
    | some vs => rw [hh] at hr; cases hr; simp [h]
  · intro req' hr
    unfold RequestImpl.DebugPrint at hr
    cases cb with
    | mk cbb cbm =>
      cases cbb with
      | none => simp [RequestImpl.GetBody, h] at hr
      | some bs =>
        simp only [RequestImpl.GetBody, h] at hr
        cases hr
        simp [h]

/-- C5 exercised concretely: the cached request's body is served from the
cache. -/
theorem C5_witness :
    RequestImpl.GetBody reqCachedA rndA = (some "test", "testmime") :=
  (C5_cached_body_one_way rndA reqCachedA { body := some "test", mimetype := "testmime" } rfl).1
